import Mathlib

/-!
Shallow embedding of `src/starlette_abstract/middleware.py`
(class `AbstractHTTPMiddleware`).

The middleware runs the downstream ASGI app in a background task (`coro`),
relays its protocol messages through a zero-buffer memory object stream, and
assembles a `StreamingResponse` from the first message.  The embedding below
models, as pure functions:

  * ASGI protocol messages (`ASGIMessage`) — the dictionaries the downstream
    app sends on the channel.  The `"body"` key may be absent, which line 69
    of the source handles via `message.get("body", b"")`; that optionality is
    modelled with an `Option`.  The `"status"`/`"headers"` keys are modelled
    as plain fields (the source reads them only on the first message).
  * the downstream handler's execution inside `coro` (`runCoro`): a sequence
    of send/raise steps; a raise stops execution immediately and is captured
    into `app_exc` (lines 35-44).
  * the continuation `call_next` (lines 48-78): given the messages that were
    relayed over the channel, the captured fault, and the result of the
    `request.is_disconnected()` query, it either raises or builds a response.
  * draining of `body_stream` (lines 65-72) to completion (`drainBody`):
    the chunks yielded in order, and the fault (if any) raised at the end.
  * the `scope["type"]` short-circuit of `__call__` (lines 27-29)
    (`middlewareEntry`).

Exceptions are modelled by an arbitrary type `ε`; a failing Python `assert`
is the distinguished fault `Fault.assertionError`, kept apart from captured
application exceptions `Fault.appExc`.
-/

/-- A byte string (Python `bytes`), as a list of byte values. -/
abbrev Bytes : Type := List Nat

/-- A raw header list: ordered (name, value) pairs of byte strings. -/
abbrev Headers : Type := List (Bytes × Bytes)

/-- An ASGI protocol message as sent on the channel.  `type` is the
`"type"` key; `status` and `headers` model those keys' values (read by the
source only on an `"http.response.start"` message); `body` is `none` when the
`"body"` key is absent from the dictionary. -/
structure ASGIMessage where
  type : String
  status : Nat
  headers : Headers
  body : Option Bytes
  more_body : Bool

/-- The `"http.response.start"` message with status `s` and headers `h`. -/
def startMsg (s : Nat) (h : Headers) : ASGIMessage :=
  ASGIMessage.mk "http.response.start" s h none false

/-- An `"http.response.body"` message carrying bytes `b` (the dummy
status/headers fields are never read on body messages). -/
def bodyMsg (b : Bytes) (more : Bool) : ASGIMessage :=
  ASGIMessage.mk "http.response.body" 0 [] (some b) more

/-- An `"http.response.body"` message whose dictionary has no `"body"` key. -/
def bodyMsgNoKey : ASGIMessage :=
  ASGIMessage.mk "http.response.body" 0 [] none false

/-- A fault that can be raised while assembling or draining a response:
either a failing `assert` of the source, or a captured application
exception re-raised (`raise app_exc from None`). -/
inductive Fault (ε : Type) where
  | assertionError
  | appExc (e : ε)
deriving DecidableEq

/-- One step of the downstream handler's execution as observed by `coro`:
it either sends a message on the channel or raises an exception. -/
inductive HandlerStep (ε : Type) where
  | send (m : ASGIMessage)
  | raise (e : ε)

/-- The background task `coro` (lines 35-44): it relays the handler's sends
onto the channel; if the handler raises, execution stops immediately and the
exception is captured into `app_exc` (which starts out `None`).  The result
is the list of messages that reached the channel and the final `app_exc`. -/
def runCoro {ε : Type} : List (HandlerStep ε) → List ASGIMessage × Option ε
  | [] => ([], none)
  | HandlerStep.send m :: rest =>
      ((m :: (runCoro rest).1), (runCoro rest).2)
  | HandlerStep.raise e :: _ => ([], some e)

/-- The value of `app_exc` after `coro` has processed the first `k` handler
steps. -/
def appExcAfter {ε : Type} (steps : List (HandlerStep ε)) (k : Nat) : Option ε :=
  (runCoro (steps.take k)).2

/-- Fully draining the generator `body_stream` (lines 65-72) over the
messages remaining on the channel: each message must have type
`"http.response.body"` (a failing `assert` aborts the drain), its bytes are
`message.get("body", b"")`; after the loop ends normally, a captured
`app_exc` is re-raised.  Returns the chunks yielded in order and the fault
raised at the end, if any. -/
def drainBody {ε : Type} : List ASGIMessage → Option ε → List Bytes × Option (Fault ε)
  | [], app_exc => ([], app_exc.map Fault.appExc)
  | message :: rest, app_exc =>
      if message.type = "http.response.body" then
        (message.body.getD [] :: (drainBody rest app_exc).1,
          (drainBody rest app_exc).2)
      else
        ([], some Fault.assertionError)

/-- The concatenated bytes of a full drain of `body_stream`. -/
def drainedFully {ε : Type} (msgs : List ASGIMessage) (app_exc : Option ε) : Bytes :=
  (drainBody msgs app_exc).1.flatten

/-- A minimal JSON value, enough for the 500 response body built by
`_client_is_connected_not_response_error`. -/
inductive Json where
  | str (s : String)
  | arr (xs : List Json)
  | obj (fs : List (String × Json))

mutual

/-- Serialization of a JSON value as `starlette.responses.JSONResponse.render`
performs it: `json.dumps` with separators `(",", ":")` and no indent.  String
escaping is omitted (no input in this development needs it). -/
def jsonRender : Json → String
  | Json.str s => "\"" ++ s ++ "\""
  | Json.arr xs => "[" ++ jsonRenderArr xs ++ "]"
  | Json.obj fs => "\x7b" ++ jsonRenderObj fs ++ "\x7d"

/-- Comma-separated serialization of a JSON array's elements. -/
def jsonRenderArr : List Json → String
  | [] => ""
  | [x] => jsonRender x
  | x :: y :: xs => jsonRender x ++ "," ++ jsonRenderArr (y :: xs)

/-- Comma-separated serialization of a JSON object's fields. -/
def jsonRenderObj : List (String × Json) → String
  | [] => ""
  | [(k, v)] => "\"" ++ k ++ "\":" ++ jsonRender v
  | (k, v) :: f :: fs =>
      "\"" ++ k ++ "\":" ++ jsonRender v ++ "," ++ jsonRenderObj (f :: fs)

end

/-- The UTF-8 bytes of an ASCII string (all strings rendered in this
development are ASCII, where UTF-8 bytes coincide with code points). -/
def strBytes (s : String) : Bytes := s.data.map Char.toNat

/-- A response object as returned by `call_next`:
  * `plain s c` models `Response(status_code=s, content=...)` with rendered
    body bytes `c`;
  * `json s c` models `JSONResponse(status_code=s, content=c)`;
  * `streaming s h rest exc` models a `StreamingResponse` with status `s`
    whose `raw_headers` were overwritten (line 77) with `h`, and whose body
    is the `body_stream` generator reading the remaining channel messages
    `rest` with captured fault `exc`. -/
inductive BuiltResponse (ε : Type) where
  | plain (status_code : Nat) (content : Bytes)
  | json (status_code : Nat) (content : Json)
  | streaming (status_code : Nat) (raw_headers : Headers)
      (channelRest : List ASGIMessage) (app_exc : Option ε)

/-- `_client_closed_connection` (lines 91-100): a plain `Response` with
status 499 and body `"Client closed connection"`. -/
def client_closed_connection {ε : Type} : BuiltResponse ε :=
  BuiltResponse.plain 499 (strBytes "Client closed connection")

/-- The dictionary passed to `JSONResponse` on the 500 path. -/
def errorContent : Json :=
  Json.obj [("errors", Json.arr [Json.obj [("message", Json.str "something went wrong")]])]

/-- `_client_is_connected_not_response_error` (lines 102-112): a
`JSONResponse` with status 500 and the structured error content. -/
def client_is_connected_not_response_error {ε : Type} : BuiltResponse ε :=
  BuiltResponse.json 500 errorContent

/-- The outcome of one `call_next` invocation: a response, or a raised
fault. -/
inductive CallNextOutcome (ε : Type) where
  | response (r : BuiltResponse ε)
  | raised (f : Fault ε)

/-- The continuation `call_next` (lines 48-78), as a function of the whole
execution: `sent` is the message sequence the handler pushed through the
channel, `app_exc` the fault `coro` captured, and `is_disconnected` the
value the `request.is_disconnected()` query would return.

If the stream ends with no message, a captured fault is re-raised; otherwise
the disconnection query decides between the 499 and 500 responses.  If a
first message arrived, it must be `"http.response.start"` (line 63's
`assert`); a `StreamingResponse` is then assembled from its status and
headers, with the remaining messages backing `body_stream`. -/
def call_next {ε : Type} (sent : List ASGIMessage) (app_exc : Option ε)
    (is_disconnected : Bool) : CallNextOutcome ε :=
  match sent with
  | [] =>
      match app_exc with
      | some exc => CallNextOutcome.raised (Fault.appExc exc)
      | none =>
          if is_disconnected then
            CallNextOutcome.response client_closed_connection
          else
            CallNextOutcome.response client_is_connected_not_response_error
  | message :: rest =>
      if message.type = "http.response.start" then
        CallNextOutcome.response
          (BuiltResponse.streaming message.status message.headers rest app_exc)
      else
        CallNextOutcome.raised Fault.assertionError

/-- What `__call__` (lines 24-29) does with a connection before any HTTP
machinery runs: either forward `(scope, receive, send)` untouched to the
wrapped app, or enter the HTTP dispatch path with them. -/
inductive CallBehavior (α ρ π : Type) where
  | passthrough (scope : α) (receive : ρ) (send : π)
  | dispatchHttp (scope : α) (receive : ρ) (send : π)

/-- A connection scope: its `"type"` key and the rest of its payload. -/
structure ScopeModel (α : Type) where
  type : String
  rest : α

/-- The entry dispatch of `__call__` (lines 27-29): a scope whose type is
not `"http"` is forwarded untouched to `self.app`; otherwise the HTTP
dispatch machinery runs on the same three objects. -/
def middlewareEntry {α ρ π : Type} (scope : ScopeModel α) (receive : ρ) (send : π) :
    CallBehavior (ScopeModel α) ρ π :=
  if scope.type ≠ "http" then
    CallBehavior.passthrough scope receive send
  else
    CallBehavior.dispatchHttp scope receive send

/-- The body-chunk messages for a list of (bytes, more) pairs. -/
def chunkMsgs (chunks : List (Bytes × Bool)) : List ASGIMessage :=
  chunks.map fun c => bodyMsg c.1 c.2

/-- The handler execution that sends a response start followed by the given
chunks and completes normally. -/
def handlerSends {ε : Type} (s : Nat) (h : Headers) (chunks : List (Bytes × Bool)) :
    List (HandlerStep ε) :=
  (startMsg s h :: chunkMsgs chunks).map HandlerStep.send

/-- The handler execution that sends a response start followed by the given
chunks and then raises `e`. -/
def handlerSendsThenRaises {ε : Type} (s : Nat) (h : Headers)
    (chunks : List (Bytes × Bool)) (e : ε) : List (HandlerStep ε) :=
  (startMsg s h :: chunkMsgs chunks).map HandlerStep.send ++ [HandlerStep.raise e]

/-- The fault `e` is surfaced by a `call_next` outcome: either the outcome
raises it directly, or it is a streaming response whose full body drain ends
by raising it. -/
def faultSurfaced {ε : Type} (e : ε) (o : CallNextOutcome ε) : Prop :=
  o = CallNextOutcome.raised (Fault.appExc e) ∨
    ∃ s h msgs exc, o = CallNextOutcome.response (BuiltResponse.streaming s h msgs exc) ∧
      (drainBody msgs exc).2 = some (Fault.appExc e)

theorem runCoro_sends {ε : Type} (msgs : List ASGIMessage) :
    runCoro (ε := ε) (msgs.map HandlerStep.send) = (msgs, none) := by
  induction msgs with
  | nil => rfl
  | cons m rest ih => simp [runCoro, ih]

theorem runCoro_sends_raise {ε : Type} (msgs : List ASGIMessage) (e : ε) :
    runCoro (msgs.map HandlerStep.send ++ [HandlerStep.raise e]) = (msgs, some e) := by
  induction msgs with
  | nil => rfl
  | cons m rest ih => simp [runCoro, ih]

theorem drainBody_chunks {ε : Type} (chunks : List (Bytes × Bool)) (exc : Option ε) :
    drainBody (chunkMsgs chunks) exc = (chunks.map Prod.fst, exc.map Fault.appExc) := by
  induction chunks with
  | nil => rfl
  | cons c rest ih =>
      simp only [chunkMsgs, List.map, bodyMsg] at ih ⊢
      simp [drainBody, ih]

theorem appExcAfter_mono {ε : Type} (steps : List (HandlerStep ε)) :
    ∀ k j : Nat, k ≤ j → ∀ e : ε, appExcAfter steps k = some e → appExcAfter steps j = some e := by
  induction steps with
  | nil =>
      intro k j _ e hk
      simp [appExcAfter, runCoro] at hk
  | cons st rest ih =>
      intro k j hkj e hk
      cases k with
      | zero => simp [appExcAfter, runCoro] at hk
      | succ k =>
        cases j with
        | zero => omega
        | succ j =>
          cases st with
          | send m =>
              simp [appExcAfter, List.take, runCoro] at hk ⊢
              exact ih k j (Nat.succ_le_succ_iff.mp hkj) e hk
          | raise e0 =>
              simpa [appExcAfter, List.take, runCoro] using hk

/-- Claim C1: for every well-formed handler message sequence — exactly one
`ResponseStart` with status `s` and headers `h`, followed by body chunks —
`call_next` returns a streaming response with status code `s`, raw headers
exactly `h`, and a body that, fully drained, yields each chunk's bytes in
order without fault, concatenating to exactly the chunks' bytes. -/
theorem c1_wellformed_sequence_assembled {ε : Type} (s : Nat) (h : Headers)
    (chunks : List (Bytes × Bool)) (d : Bool) :
    call_next (runCoro (handlerSends (ε := ε) s h chunks)).1
        (runCoro (handlerSends (ε := ε) s h chunks)).2 d
      = CallNextOutcome.response (BuiltResponse.streaming s h (chunkMsgs chunks) none)
    ∧ drainBody (chunkMsgs chunks) (none : Option ε)
      = (chunks.map Prod.fst, none)
    ∧ drainedFully (chunkMsgs chunks) (none : Option ε)
      = (chunks.map Prod.fst).flatten := by
  refine ⟨?_, ?_, ?_⟩
  · rw [handlerSends, runCoro_sends]
    simp [call_next, startMsg]
  · simpa using drainBody_chunks chunks none
  · rw [drainedFully, drainBody_chunks]

/-- Claim C2: for every handler that sends one `ResponseStart` and `K` body
chunks and then raises `e`, `call_next` assembles the streaming response with
the captured fault, and fully draining its body yields exactly those `K`
chunks' bytes in order and then raises that same exception `e`. -/
theorem c2_fault_after_chunks_surfaces_on_drain {ε : Type} (s : Nat) (h : Headers)
    (chunks : List (Bytes × Bool)) (e : ε) (d : Bool) :
    call_next (runCoro (handlerSendsThenRaises s h chunks e)).1
        (runCoro (handlerSendsThenRaises s h chunks e)).2 d
      = CallNextOutcome.response (BuiltResponse.streaming s h (chunkMsgs chunks) (some e))
    ∧ drainBody (chunkMsgs chunks) (some e)
      = (chunks.map Prod.fst, some (Fault.appExc e)) := by
  constructor
  · rw [handlerSendsThenRaises, runCoro_sends_raise]
    simp [call_next, startMsg]
  · simpa using drainBody_chunks chunks (some e)

/-- Claim C3: for every handler that raises `e` before sending any message,
`call_next` raises that same exception directly: the outcome does not depend
on the connection-liveness query, and no response (neither the 499 nor the
500 fallback) is produced. -/
theorem c3_fault_before_any_message_reraised {ε : Type} (e : ε)
    (tail : List (HandlerStep ε)) (d : Bool) :
    call_next (runCoro (HandlerStep.raise e :: tail)).1
        (runCoro (HandlerStep.raise e :: tail)).2 d
      = CallNextOutcome.raised (Fault.appExc e)
    ∧ (∀ d₁ d₂ : Bool,
        call_next (runCoro (HandlerStep.raise e :: tail)).1
            (runCoro (HandlerStep.raise e :: tail)).2 d₁
          = call_next (runCoro (HandlerStep.raise e :: tail)).1
              (runCoro (HandlerStep.raise e :: tail)).2 d₂)
    ∧ (∀ r : BuiltResponse ε,
        call_next (runCoro (HandlerStep.raise e :: tail)).1
            (runCoro (HandlerStep.raise e :: tail)).2 d
          ≠ CallNextOutcome.response r) := by
  refine ⟨rfl, fun d₁ d₂ => rfl, fun r hr => ?_⟩
  simp [runCoro, call_next] at hr

/-- Claim C4: when the channel ends with zero messages, no fault was
captured, and the client is reported disconnected, `call_next` returns a
response with status 499 and body `"Client closed connection"`. -/
theorem c4_disconnected_returns_499 {ε : Type} :
    call_next ([] : List ASGIMessage) (none : Option ε) true
      = CallNextOutcome.response
          (BuiltResponse.plain 499 (strBytes "Client closed connection")) := by
  rfl

/-- Claim C5: when the channel ends with zero messages, no fault was
captured, and the client is reported still connected, `call_next` returns
a JSON response with status 500 whose content serializes to
the error document with message "something went wrong". -/
theorem c5_connected_returns_500_json {ε : Type} :
    call_next ([] : List ASGIMessage) (none : Option ε) false
      = CallNextOutcome.response (BuiltResponse.json 500 errorContent)
    ∧ jsonRender errorContent
      = "\x7b\"errors\":[\x7b\"message\":\"something went wrong\"\x7d]\x7d" := by
  exact ⟨rfl, by simp [jsonRender, jsonRenderArr, jsonRenderObj, errorContent]⟩

/-- Claim C6: for every handler whose first sent message is not an
`"http.response.start"` message, `call_next` fails fast with the assertion
error and never constructs a response. -/
theorem c6_non_start_first_message_fails_fast {ε : Type} (m : ASGIMessage)
    (rest : List ASGIMessage) (exc : Option ε) (d : Bool)
    (hm : m.type ≠ "http.response.start") :
    call_next (m :: rest) exc d = CallNextOutcome.raised Fault.assertionError
    ∧ ∀ r : BuiltResponse ε, call_next (m :: rest) exc d ≠ CallNextOutcome.response r := by
  constructor
  · simp [call_next, hm]
  · intro r hr
    simp [call_next, hm] at hr

/-- Witness for C6: a body-typed first message triggers the failure. -/
theorem c6_witness :
    bodyMsgNoKey.type ≠ "http.response.start"
    ∧ (call_next [bodyMsgNoKey] (none : Option Nat) false
        = CallNextOutcome.raised Fault.assertionError
      ∧ ∀ r : BuiltResponse Nat,
          call_next [bodyMsgNoKey] (none : Option Nat) false
            ≠ CallNextOutcome.response r) :=
  ⟨by decide, c6_non_start_first_message_fails_fast bodyMsgNoKey [] none false (by decide)⟩

/-- Claim C8: for every connection whose scope type is not `"http"`, the
middleware forwards the connection untouched — the wrapped app receives
exactly the original scope, receive and send objects — and the HTTP dispatch
machinery does not run. -/
theorem c8_non_http_passthrough {α ρ π : Type} (scope : ScopeModel α)
    (receive : ρ) (send : π) (h : scope.type ≠ "http") :
    middlewareEntry scope receive send = CallBehavior.passthrough scope receive send := by
  simp [middlewareEntry, h]

/-- Witness for C8: a websocket scope passes through untouched. -/
theorem c8_witness :
    (ScopeModel.mk "websocket" ()).type ≠ "http"
    ∧ middlewareEntry (ScopeModel.mk "websocket" ()) (0 : Nat) (1 : Nat)
      = CallBehavior.passthrough (ScopeModel.mk "websocket" ()) 0 1 :=
  ⟨by decide, c8_non_http_passthrough (ScopeModel.mk "websocket" ()) 0 1 (by decide)⟩

/-- Counterexample to C9 as stated: a handler that sends a protocol-violating
first message and then raises `0` ends with `app_exc = some 0`, yet the fault
is never re-raised — `call_next` raises the assertion error instead, so the
captured fault is dropped at both surfacing points. -/
theorem c9_counterexample :
    runCoro [HandlerStep.send bodyMsgNoKey, HandlerStep.raise (0 : Nat)]
      = ([bodyMsgNoKey], some 0)
    ∧ ¬ faultSurfaced 0 (call_next [bodyMsgNoKey] (some (0 : Nat)) true) := by
  constructor
  · rfl
  · intro hs
    rcases hs with h1 | ⟨s, h, msgs, exc, h2, _⟩
    · simp [call_next, bodyMsgNoKey] at h1
    · simp [call_next, bodyMsgNoKey] at h2

/-- Claim C9 (amended): within one `call_next` execution, `app_exc` is
written at most once and never cleared or changed — once set after `k`
handler steps it holds the same value after every later step count `j` — and
whenever it is set it is re-raised at the surfacing points of the source,
provided no protocol violation intervenes: immediately when the channel
ended with no message, and at the end of a full drain over well-formed body
chunk messages. -/
theorem c9_fault_write_once_and_surfaced {ε : Type} (steps : List (HandlerStep ε))
    (k j : Nat) (e : ε) (hkj : k ≤ j) (hk : appExcAfter steps k = some e) :
    appExcAfter steps j = some e
    ∧ (∀ e2 : ε, ∀ d : Bool,
        call_next ([] : List ASGIMessage) (some e2) d
          = CallNextOutcome.raised (Fault.appExc e2))
    ∧ (∀ e2 : ε, ∀ chunks : List (Bytes × Bool),
        (drainBody (chunkMsgs chunks) (some e2)).2 = some (Fault.appExc e2)) := by
  refine ⟨appExcAfter_mono steps k j hkj e hk, fun e2 d => rfl, fun e2 chunks => ?_⟩
  simp [drainBody_chunks]

/-- Witness for C9 (amended): a handler that raises `5` as its first step. -/
theorem c9_witness :
    1 ≤ 2
    ∧ appExcAfter [HandlerStep.raise (5 : Nat)] 1 = some 5
    ∧ (appExcAfter [HandlerStep.raise (5 : Nat)] 2 = some 5
      ∧ (∀ e2 : Nat, ∀ d : Bool,
          call_next ([] : List ASGIMessage) (some e2) d
            = CallNextOutcome.raised (Fault.appExc e2))
      ∧ (∀ e2 : Nat, ∀ chunks : List (Bytes × Bool),
          (drainBody (chunkMsgs chunks) (some e2)).2 = some (Fault.appExc e2))) :=
  ⟨by decide, by decide,
    c9_fault_write_once_and_surfaced [HandlerStep.raise (5 : Nat)] 1 2 5
      (by decide) (by decide)⟩

/-- Claim C10: a body message whose dictionary lacks the `"body"` key
contributes an empty byte string to the drained body stream instead of
failing: the drain yields `b""` for it and continues with the rest. -/
theorem c10_missing_body_key_yields_empty {ε : Type} (rest : List ASGIMessage)
    (exc : Option ε) :
    drainBody (bodyMsgNoKey :: rest) exc
      = (([] : Bytes) :: (drainBody rest exc).1, (drainBody rest exc).2)
    ∧ drainedFully (bodyMsgNoKey :: rest) exc = drainedFully rest exc := by
  constructor
  · simp [drainBody, bodyMsgNoKey]
  · simp [drainedFully, drainBody, bodyMsgNoKey]
